import Mathlib

/-!
Verification of the `aiobreaker` circuit-breaker library
(`src/aiobreaker/circuitbreaker.py`) against its specification.

The controller (`CircuitBreaker`) is translated from the source file.
The state classes (`state.py`), the memory storage (`storage/memory.py`) and
the listener class (`listener.py`) are imported by the source file but are not
part of the provided sources; the definitions that stand for them are modelled
from the specification and are marked `Modelled from the spec:` in their doc
comments.

Modelling conventions:
* time is a natural number of seconds (`datetime.now()` becomes an explicit
  `now : Nat` argument; a `timedelta` becomes a `Nat`);
* an exception value carries its concrete type and the list of all its
  ancestor classes (its method-resolution order, which contains the concrete
  type itself), so that Python's `issubclass(type(e), tuple(ts))` becomes
  membership of some element of `ts` in that list;
* listeners are opaque identifiers; a transition notification is recorded as
  an event `(previous tag, new tag)` appended to a log, standing for the
  synchronous broadcast to all registered listeners;
* the number of invocations of the wrapped function and the number of
  state dispatches performed by a call are returned explicitly so that
  "the wrapped function is not invoked" and "accounting happens exactly once"
  are statable.
-/

namespace Aiobreaker

/-- The three state tags of `CircuitBreakerState` (`CLOSED`, `OPEN`,
`HALF_OPEN`).  `OPEN` is rendered `opened` because `open` is a Lean keyword. -/
inductive CircuitBreakerState
  | closed
  | opened
  | half_open
deriving DecidableEq, Repr

/-- An exception value: its concrete type and the list of its ancestor classes
(including the concrete type itself, as in a Python MRO). -/
structure Exc where
  ty : Nat
  ancestors : List Nat
deriving DecidableEq, Repr

/-- Modelled from the spec: a state object is tagged by \x7bClosed, Open,
Half-Open\x7d and, for Open, holds the timestamp at which it was entered
(`state.py` is not among the provided sources). -/
inductive StateObj
  | closed
  | opened (opened_at : Nat)
  | half_open
deriving DecidableEq, Repr

/-- The tag identifying a state object. -/
def StateObj.tag : StateObj → CircuitBreakerState
  | .closed => .closed
  | .opened _ => .opened
  | .half_open => .half_open

/-- A transition notification event: (previous state tag, new state tag).
`prev` is `none` only for the state created at construction time, which does
not notify. -/
structure Notification where
  prev : Option CircuitBreakerState
  next : CircuitBreakerState
deriving DecidableEq, Repr

/-- Modelled from the spec: `CircuitMemoryStorage` persists the current state
tag and the consecutive-failure counter (`storage/memory.py` is not among the
provided sources). -/
structure CircuitMemoryStorage where
  state : CircuitBreakerState
  counter : Nat
deriving DecidableEq, Repr

/-- The `CircuitBreaker` controller: configuration, storage, the cached state
object and the log of listener notifications.  Listeners are opaque
identifiers (only their number and order matter to the claims). -/
structure CircuitBreaker where
  fail_max : Nat
  timeout_duration : Nat
  excluded_exception_types : List Nat
  listeners : List Nat
  name : Option String
  state_storage : CircuitMemoryStorage
  cachedState : StateObj
  notifications : List Notification
deriving DecidableEq, Repr

namespace CircuitBreaker

/-- `fail_counter` property: `self._state_storage.counter`. -/
def fail_counter (b : CircuitBreaker) : Nat :=
  b.state_storage.counter

/-- `current_state` property: `self._state_storage.state`. -/
def current_state (b : CircuitBreaker) : CircuitBreakerState :=
  b.state_storage.state

/-- Replace the failure counter in storage (`increment_counter` /
`reset_counter` both reduce to this). -/
def setCounter (b : CircuitBreaker) (k : Nat) : CircuitBreaker :=
  { b with state_storage := { b.state_storage with counter := k } }

/-- `_inc_counter`: increments the counter of failed calls. -/
def inc_counter (b : CircuitBreaker) : CircuitBreaker :=
  b.setCounter (b.state_storage.counter + 1)

/-- `is_system_error`: the exception is a system error iff its type is not a
subclass of any excluded exception type.  `issubclass(type(e), tuple(ts))`
holds iff some member of `ts` is among the ancestors of `type(e)`. -/
def is_system_error (b : CircuitBreaker) (e : Exc) : Bool :=
  ! b.excluded_exception_types.any (fun t => e.ancestors.contains t)

/-- `_create_new_state` restricted to its pure part: build the state object
for a tag.  Modelled from the spec: an Open state records its entry timestamp
at construction (`state.py` is not among the provided sources). -/
def create_new_state (tag : CircuitBreakerState) (now : Nat) : StateObj :=
  match tag with
  | .closed => .closed
  | .opened => .opened now
  | .half_open => .half_open

/-- The `state` setter (`@state.setter`): replace the cached state object by a
fresh one built from the tag, with `notify=True`.  The constructor side
effects are modelled from the spec: every transition notifies the listeners
with the previous and the new state, and the counter is reset to zero
whenever Closed is (re)entered. -/
def set_state (b : CircuitBreaker) (tag : CircuitBreakerState) (now : Nat) :
    CircuitBreaker :=
  let b1 := { b with
    cachedState := create_new_state tag now
    notifications := b.notifications ++ [⟨some b.cachedState.tag, tag⟩] }
  if tag = .closed then b1.setCounter 0 else b1

/-- The `state` property getter: if the storage tag differs from the cached
state's tag the cached state is replaced (with notification) before being
returned.  Returns the state object together with the updated breaker. -/
def state (b : CircuitBreaker) (now : Nat) : StateObj × CircuitBreaker :=
  if b.current_state = b.cachedState.tag then
    (b.cachedState, b)
  else
    let b1 := b.set_state b.current_state now
    (b1.cachedState, b1)

/-- `open()`: `self.state = self._state_storage.state = CircuitBreakerState.OPEN`
(the cached-state setter runs first, then the storage tag is written). -/
def openBreaker (b : CircuitBreaker) (now : Nat) : CircuitBreaker :=
  let b1 := b.set_state .opened now
  { b1 with state_storage := { b1.state_storage with state := .opened } }

/-- `half_open()`: cached-state setter, then storage tag. -/
def halfOpenBreaker (b : CircuitBreaker) (now : Nat) : CircuitBreaker :=
  let b1 := b.set_state .half_open now
  { b1 with state_storage := { b1.state_storage with state := .half_open } }

/-- `close()`: cached-state setter, then storage tag. -/
def closeBreaker (b : CircuitBreaker) (now : Nat) : CircuitBreaker :=
  let b1 := b.set_state .closed now
  { b1 with state_storage := { b1.state_storage with state := .closed } }

end CircuitBreaker

/-- The outcome of invoking the wrapped function: it returns normally or it
raises an exception. -/
inductive Outcome
  | success
  | raised (e : Exc)
deriving DecidableEq, Repr

/-- What a protected call returns to the caller: the wrapped function's normal
return, the original exception re-raised, or the breaker-open error (a
distinct kind, `CircuitBreakerError`) carrying the remaining wait time. -/
inductive CallResult
  | ok
  | reraised (e : Exc)
  | breakerOpen (remaining : Nat)
deriving DecidableEq, Repr

/-- Result of a state handler: the call result, the updated breaker, and how
many times the wrapped function was invoked. -/
structure HandleOut where
  result : CallResult
  breaker : CircuitBreaker
  fn_invocations : Nat
deriving DecidableEq, Repr

/-- Result of `call`: additionally counts how many state dispatches (breaker
accounting passes) the call performed. -/
structure CallOut where
  result : CallResult
  breaker : CircuitBreaker
  fn_invocations : Nat
  dispatches : Nat
deriving DecidableEq, Repr

namespace CircuitBreaker

/-- Modelled from the spec: Closed-state call handling (`state.py` is not
among the provided sources).  Invoke the function; on success reset the
counter to 0 and remain Closed; on a non-excluded failure increment the
counter and, if it now reaches the threshold, transition to Open with entry
timestamp `now`; an excluded failure changes nothing.  The original error is
re-raised in every failure case. -/
def handleClosed (b : CircuitBreaker) (now : Nat) (out : Outcome) : HandleOut :=
  match out with
  | .success => ⟨.ok, b.setCounter 0, 1⟩
  | .raised e =>
    if b.is_system_error e then
      let b1 := b.inc_counter
      if b1.fail_max ≤ b1.state_storage.counter then
        ⟨.reraised e, b1.openBreaker now, 1⟩
      else
        ⟨.reraised e, b1, 1⟩
    else
      ⟨.reraised e, b, 1⟩

/-- Modelled from the spec: Half-Open-state call handling (`state.py` is not
among the provided sources).  Invoke the function exactly once; on success
reset the counter and transition to Closed; on a non-excluded failure
transition to Open with a fresh entry timestamp; an excluded failure does not
transition.  The original error is re-raised in every failure case. -/
def handleHalfOpen (b : CircuitBreaker) (now : Nat) (out : Outcome) : HandleOut :=
  match out with
  | .success => ⟨.ok, b.closeBreaker now, 1⟩
  | .raised e =>
    if b.is_system_error e then
      ⟨.reraised e, b.openBreaker now, 1⟩
    else
      ⟨.reraised e, b, 1⟩

/-- Modelled from the spec: Open-state call handling (`state.py` is not among
the provided sources).  If the time elapsed since the entry timestamp is
strictly below the timeout, the function is not invoked and the call fails
with the breaker-open error carrying the remaining wait; otherwise the breaker
first transitions to Half-Open (notifying listeners) and the same invocation
is handled by the Half-Open logic. -/
def handleOpen (b : CircuitBreaker) (opened_at now : Nat) (out : Outcome) :
    HandleOut :=
  if now - opened_at < b.timeout_duration then
    ⟨.breakerOpen (b.timeout_duration - (now - opened_at)), b, 0⟩
  else
    handleHalfOpen (b.halfOpenBreaker now) now out

/-- `self.state.call(func, ...)`: sync the cached state with storage, then
delegate to the current state's handler. -/
def dispatch (b : CircuitBreaker) (now : Nat) (out : Outcome) : HandleOut :=
  let p := b.state now
  match p.1 with
  | .closed => handleClosed p.2 now out
  | .opened t => handleOpen p.2 t now out
  | .half_open => handleHalfOpen p.2 now out

end CircuitBreaker

/-- A Python callable as passed to `call`: either a plain function with the
given behaviour, or the wrapper produced by the breaker's decorator with the
default `ignore_on_call=True` marking, closing over a plain function with the
given behaviour. -/
inductive Func
  | plain (out : Outcome)
  | wrappedDefault (out : Outcome)
deriving DecidableEq, Repr

/-- `getattr(func, "_ignore_on_call", False)`: `False` for a plain function
(no such attribute), the decorator's default `True` for the wrapper. -/
def Func.ignoreOnCall : Func → Bool
  | .plain _ => false
  | .wrappedDefault _ => true

namespace CircuitBreaker

/-- `call` applied to a plain function: acquire the lock and dispatch through
the current state (one accounting pass). -/
def callPlain (b : CircuitBreaker) (out : Outcome) (now : Nat) : CallOut :=
  let h := b.dispatch now out
  ⟨h.result, h.breaker, h.fn_invocations, 1⟩

/-- `call(func, *args)`: if the function carries `_ignore_on_call = True` it
is invoked directly — and the wrapper's body is `self.call(original)`, a
single dispatch on the original plain function; otherwise the call dispatches
through the current state. -/
def call (b : CircuitBreaker) (f : Func) (now : Nat) : CallOut :=
  match f with
  | .plain out => b.callPlain out now
  | .wrappedDefault out => b.callPlain out now

/-- Invoking the decorator's wrapper directly (not through `call`): its body
is `self.call(func, ...)` on the original, unmarked function. -/
def invokeWrapper (b : CircuitBreaker) (out : Outcome) (now : Nat) : CallOut :=
  b.call (.plain out) now

end CircuitBreaker

/-- A positional argument to the breaker's `__call__`: a function object (with
its behaviour) or any non-function value. -/
inductive PosArg
  | function (out : Outcome)
  | nonFunction
deriving DecidableEq, Repr

/-- What `__call__` returns: the wrapped function directly, or the
`_outer_wrapper` decorator awaiting the function. -/
inductive DecoratorResult
  | wrappedFunc (f : Func)
  | decoratorFunc
deriving DecidableEq, Repr

namespace CircuitBreaker

/-- `__call__(*call_args)` with the default `ignore_on_call=True`: exactly one
function argument returns the wrapper (marked `_ignore_on_call = True`); no
positional argument returns `_outer_wrapper`; anything else raises
`TypeError` (modelled as `Except.error ()`).  `self` is returned unchanged to
express that `__call__` never mutates the breaker. -/
def dunderCall (b : CircuitBreaker) (call_args : List PosArg) :
    CircuitBreaker × Except Unit DecoratorResult :=
  match call_args with
  | [PosArg.function out] => (b, .ok (.wrappedFunc (.wrappedDefault out)))
  | [] => (b, .ok .decoratorFunc)
  | _ => (b, .error ())

/-- `__init__`: all parameters explicit (`exclude`/`listeners` default to the
empty list when `None`).  The storage defaults to a fresh
`CircuitMemoryStorage(CircuitBreakerState.CLOSED)`, modelled from the spec
with counter 0; the cached state is created from the storage tag without
notification. -/
def init (fm : Nat) (td : Nat) (exclude : Option (List Nat))
    (ls : Option (List Nat)) (nm : Option String) : CircuitBreaker :=
  { fail_max := fm
    timeout_duration := td
    excluded_exception_types := exclude.getD []
    listeners := ls.getD []
    name := nm
    state_storage := { state := .closed, counter := 0 }
    cachedState := create_new_state .closed 0
    notifications := [] }

/-- A breaker constructed with every parameter left to its default. -/
def mk0 : CircuitBreaker :=
  init 5 60 none none none

/-- `fail_max` setter. -/
def set_fail_max (b : CircuitBreaker) (n : Nat) : CircuitBreaker :=
  { b with fail_max := n }

/-- `timeout_duration` setter. -/
def set_timeout_duration (b : CircuitBreaker) (t : Nat) : CircuitBreaker :=
  { b with timeout_duration := t }

/-- `add_excluded_exception`. -/
def add_excluded_exception (b : CircuitBreaker) (t : Nat) : CircuitBreaker :=
  { b with excluded_exception_types := b.excluded_exception_types ++ [t] }

/-- `remove_excluded_exception` (`list.remove`: erase the first occurrence). -/
def remove_excluded_exception (b : CircuitBreaker) (t : Nat) : CircuitBreaker :=
  { b with excluded_exception_types := b.excluded_exception_types.erase t }

/-- `add_listener`. -/
def add_listener (b : CircuitBreaker) (l : Nat) : CircuitBreaker :=
  { b with listeners := b.listeners ++ [l] }

/-- `remove_listener` (`list.remove`: erase the first occurrence). -/
def remove_listener (b : CircuitBreaker) (l : Nat) : CircuitBreaker :=
  { b with listeners := b.listeners.erase l }

/-- `name` setter. -/
def set_name (b : CircuitBreaker) (n : Option String) : CircuitBreaker :=
  { b with name := n }

end CircuitBreaker

/-- `k` consecutive protected calls, each of which raises `e`, all performed at
time `now`, starting from breaker `b`. -/
def failCalls (e : Exc) (now : Nat) (b : CircuitBreaker) : Nat → CircuitBreaker
  | 0 => b
  | n + 1 => ((failCalls e now b n).call (.plain (.raised e)) now).breaker

/-- A sample exception that is a system error for any breaker excluding only
type 0 (its ancestors are just its own type 1). -/
def eSys : Exc := ⟨1, [1]⟩

/-- A sample exception of type 2 whose ancestors include type 0, hence
excluded by any breaker whose exclusion list contains 0. -/
def eExcluded : Exc := ⟨2, [2, 0]⟩

/-- A default breaker whose storage tag was changed to Open behind the
controller's back (the cached state still says Closed). -/
def bDrift : CircuitBreaker :=
  { CircuitBreaker.mk0 with state_storage := { state := .opened, counter := 0 } }

/-- A concrete Open breaker (entered at time 0, timeout 3) excluding
exception type 0. -/
def bOpenCex : CircuitBreaker :=
  { fail_max := 5, timeout_duration := 3, excluded_exception_types := [0],
    listeners := [], name := none,
    state_storage := { state := .opened, counter := 1 },
    cachedState := .opened 0, notifications := [] }

/-- A concrete Closed breaker with counter 3, excluding exception type 0. -/
def bClosedW : CircuitBreaker :=
  { fail_max := 5, timeout_duration := 3, excluded_exception_types := [0],
    listeners := [], name := none,
    state_storage := { state := .closed, counter := 3 },
    cachedState := .closed, notifications := [] }

/-- A concrete Half-Open breaker with counter 2, excluding exception type 0. -/
def bHalfOpenW : CircuitBreaker :=
  { bClosedW with
    state_storage := { state := .half_open, counter := 2 }
    cachedState := .half_open }

/-- A concrete Open breaker entered at time 5, timeout 3, counter 2. -/
def bOpenW : CircuitBreaker :=
  { bClosedW with
    state_storage := { state := .opened, counter := 2 }
    cachedState := .opened 5 }

/-- A fresh breaker with failure threshold 2 and timeout 9. -/
def bTripW : CircuitBreaker :=
  CircuitBreaker.init 2 9 none none none

/- ------------------------------------------------------------------ -/
/- Helper lemmas                                                      -/
/- ------------------------------------------------------------------ -/

theorem StateObj.tag_create (tag : CircuitBreakerState) (now : Nat) :
    (CircuitBreaker.create_new_state tag now).tag = tag := by
  cases tag <;> rfl

theorem CircuitBreaker.setCounter_of_eq (b : CircuitBreaker) (k : Nat)
    (h : b.state_storage.counter = k) : b.setCounter k = b := by
  obtain ⟨fm, td, ex, ls, nm, ⟨st, cnt⟩, ca, no⟩ := b
  cases h
  rfl

theorem CircuitBreaker.is_system_error_set_state (b : CircuitBreaker)
    (tag : CircuitBreakerState) (now : Nat) (e : Exc) :
    (b.set_state tag now).is_system_error e = b.is_system_error e := by
  by_cases h : tag = .closed <;>
    simp [set_state, h, setCounter, is_system_error]

theorem CircuitBreaker.is_system_error_halfOpenBreaker (b : CircuitBreaker)
    (now : Nat) (e : Exc) :
    (b.halfOpenBreaker now).is_system_error e = b.is_system_error e := by
  simp [halfOpenBreaker, is_system_error, set_state]

theorem CircuitBreaker.current_state_halfOpenBreaker (b : CircuitBreaker)
    (now : Nat) : (b.halfOpenBreaker now).current_state = .half_open := by
  simp [halfOpenBreaker, current_state]

theorem CircuitBreaker.cachedState_halfOpenBreaker (b : CircuitBreaker)
    (now : Nat) : (b.halfOpenBreaker now).cachedState = .half_open := by
  simp [halfOpenBreaker, set_state, create_new_state]

theorem CircuitBreaker.fail_counter_halfOpenBreaker (b : CircuitBreaker)
    (now : Nat) : (b.halfOpenBreaker now).fail_counter = b.fail_counter := by
  simp [halfOpenBreaker, set_state, fail_counter]

theorem CircuitBreaker.notifications_halfOpenBreaker (b : CircuitBreaker)
    (now : Nat) : (b.halfOpenBreaker now).notifications
      = b.notifications ++ [⟨some b.cachedState.tag, .half_open⟩] := by
  simp [halfOpenBreaker, set_state]

theorem CircuitBreaker.current_state_openBreaker (b : CircuitBreaker)
    (now : Nat) : (b.openBreaker now).current_state = .opened := by
  simp [openBreaker, current_state]

theorem CircuitBreaker.cachedState_openBreaker (b : CircuitBreaker)
    (now : Nat) : (b.openBreaker now).cachedState = .opened now := by
  simp [openBreaker, set_state, create_new_state]

theorem CircuitBreaker.fail_counter_openBreaker (b : CircuitBreaker)
    (now : Nat) : (b.openBreaker now).fail_counter = b.fail_counter := by
  simp [openBreaker, set_state, fail_counter]

theorem CircuitBreaker.current_state_closeBreaker (b : CircuitBreaker)
    (now : Nat) : (b.closeBreaker now).current_state = .closed := by
  simp [closeBreaker, current_state]

theorem CircuitBreaker.cachedState_closeBreaker (b : CircuitBreaker)
    (now : Nat) : (b.closeBreaker now).cachedState = .closed := by
  simp [closeBreaker, set_state, create_new_state, setCounter]

theorem CircuitBreaker.fail_counter_closeBreaker (b : CircuitBreaker)
    (now : Nat) : (b.closeBreaker now).fail_counter = 0 := by
  simp [closeBreaker, set_state, setCounter, fail_counter]

theorem CircuitBreaker.current_state_setCounter (b : CircuitBreaker)
    (k : Nat) : (b.setCounter k).current_state = b.current_state := rfl

theorem CircuitBreaker.fail_counter_setCounter (b : CircuitBreaker)
    (k : Nat) : (b.setCounter k).fail_counter = k := rfl

theorem CircuitBreaker.state_of_synced (b : CircuitBreaker) (now : Nat)
    (h : b.current_state = b.cachedState.tag) :
    b.state now = (b.cachedState, b) := by
  simp [state, h]

theorem CircuitBreaker.dispatch_closed (b : CircuitBreaker) (now : Nat)
    (out : Outcome) (hs : b.current_state = .closed)
    (hc : b.cachedState = .closed) :
    b.dispatch now out = b.handleClosed now out := by
  have hsync : b.current_state = b.cachedState.tag := by rw [hs, hc]; rfl
  simp [dispatch, state_of_synced b now hsync, hc]

theorem CircuitBreaker.dispatch_half_open (b : CircuitBreaker) (now : Nat)
    (out : Outcome) (hs : b.current_state = .half_open)
    (hc : b.cachedState = .half_open) :
    b.dispatch now out = b.handleHalfOpen now out := by
  have hsync : b.current_state = b.cachedState.tag := by rw [hs, hc]; rfl
  simp [dispatch, state_of_synced b now hsync, hc]

theorem CircuitBreaker.dispatch_opened (b : CircuitBreaker) (t now : Nat)
    (out : Outcome) (hs : b.current_state = .opened)
    (hc : b.cachedState = .opened t) :
    b.dispatch now out = b.handleOpen t now out := by
  have hsync : b.current_state = b.cachedState.tag := by rw [hs, hc]; rfl
  simp [dispatch, state_of_synced b now hsync, hc]

/- ------------------------------------------------------------------ -/
/- Claim theorems                                                     -/
/- ------------------------------------------------------------------ -/

/-- C8: a breaker constructed without explicit configuration has failure
threshold 5, timeout 60 seconds, empty exclusion list, no listeners, no name,
and starts Closed; threshold, timeout, exclusions, listeners and name are all
settable at construction and mutable afterward through the corresponding
accessor/mutator. -/
theorem configuration_surface :
    (CircuitBreaker.mk0.fail_max = 5 ∧
     CircuitBreaker.mk0.timeout_duration = 60 ∧
     CircuitBreaker.mk0.excluded_exception_types = [] ∧
     CircuitBreaker.mk0.listeners = [] ∧
     CircuitBreaker.mk0.name = none ∧
     CircuitBreaker.mk0.current_state = .closed ∧
     CircuitBreaker.mk0.cachedState = .closed ∧
     CircuitBreaker.mk0.fail_counter = 0) ∧
    (∀ fm td ex ls nm,
      (CircuitBreaker.init fm td (some ex) (some ls) (some nm)).fail_max = fm ∧
      (CircuitBreaker.init fm td (some ex) (some ls) (some nm)).timeout_duration = td ∧
      (CircuitBreaker.init fm td (some ex) (some ls) (some nm)).excluded_exception_types = ex ∧
      (CircuitBreaker.init fm td (some ex) (some ls) (some nm)).listeners = ls ∧
      (CircuitBreaker.init fm td (some ex) (some ls) (some nm)).name = some nm ∧
      (CircuitBreaker.init fm td (some ex) (some ls) (some nm)).current_state = .closed) ∧
    (∀ b n, (CircuitBreaker.set_fail_max b n).fail_max = n) ∧
    (∀ b t, (CircuitBreaker.set_timeout_duration b t).timeout_duration = t) ∧
    (∀ b t, (CircuitBreaker.add_excluded_exception b t).excluded_exception_types
      = b.excluded_exception_types ++ [t]) ∧
    (∀ b t, (CircuitBreaker.remove_excluded_exception b t).excluded_exception_types
      = b.excluded_exception_types.erase t) ∧
    (∀ b l, (CircuitBreaker.add_listener b l).listeners = b.listeners ++ [l]) ∧
    (∀ b l, (CircuitBreaker.remove_listener b l).listeners = b.listeners.erase l) ∧
    (∀ b nm, (CircuitBreaker.set_name b nm).name = nm) :=
  ⟨⟨rfl, rfl, rfl, rfl, rfl, rfl, rfl, rfl⟩,
   fun _ _ _ _ _ => ⟨rfl, rfl, rfl, rfl, rfl, rfl⟩,
   fun _ _ => rfl, fun _ _ => rfl, fun _ _ => rfl, fun _ _ => rfl,
   fun _ _ => rfl, fun _ _ => rfl, fun _ _ => rfl⟩

/-- C10: `__call__` with zero positional arguments returns the decorator
function, with exactly one function argument returns the wrapped function
directly, and raises `TypeError` exactly when the positional arguments are
neither empty nor a single function object; in every case the breaker itself
is unchanged. -/
theorem decorator_dunder_call (b : CircuitBreaker) (args : List PosArg) :
    (b.dunderCall args).1 = b ∧
    (b.dunderCall []).2 = .ok .decoratorFunc ∧
    (∀ out, (b.dunderCall [.function out]).2
      = .ok (.wrappedFunc (.wrappedDefault out))) ∧
    ((b.dunderCall args).2 = .error () ↔
      args ≠ [] ∧ ∀ out, args ≠ [PosArg.function out]) := by
  refine ⟨?_, rfl, fun out => rfl, ?_⟩
  · rcases args with _ | ⟨a, _ | ⟨c, t⟩⟩
    · rfl
    · cases a <;> rfl
    · cases a <;> rfl
  · rcases args with _ | ⟨a, _ | ⟨c, t⟩⟩
    · simp [CircuitBreaker.dunderCall]
    · cases a <;> simp [CircuitBreaker.dunderCall]
    · simp [CircuitBreaker.dunderCall]

/-- C10 witness: a concrete non-function single argument raises `TypeError`
and leaves the breaker unchanged. -/
theorem decorator_dunder_call_witness :
    (CircuitBreaker.mk0.dunderCall [PosArg.nonFunction]).1 = CircuitBreaker.mk0 ∧
    ((CircuitBreaker.mk0.dunderCall [PosArg.nonFunction]).2 = .error () ↔
      [PosArg.nonFunction] ≠ [] ∧
      ∀ out, [PosArg.nonFunction] ≠ [PosArg.function out]) :=
  ⟨(decorator_dunder_call CircuitBreaker.mk0 [PosArg.nonFunction]).1,
   (decorator_dunder_call CircuitBreaker.mk0 [PosArg.nonFunction]).2.2.2⟩

/-- C7: the decorator's wrapper (default marking `_ignore_on_call = True`)
performs the breaker's accounting exactly once per logical invocation:
invoking the wrapper directly dispatches once, and passing the wrapper to
`call` detects the marking and invokes it directly — again a single dispatch,
identical to direct invocation — never two. -/
theorem wrapper_single_accounting
    (b : CircuitBreaker) (out : Outcome) (now : Nat) :
    Func.ignoreOnCall (.wrappedDefault out) = true ∧
    (b.dunderCall [.function out]).2
      = .ok (.wrappedFunc (.wrappedDefault out)) ∧
    b.call (.wrappedDefault out) now = b.invokeWrapper out now ∧
    (b.invokeWrapper out now).dispatches = 1 ∧
    (b.call (.wrappedDefault out) now).dispatches = 1 ∧
    (b.call (.plain out) now).dispatches = 1 :=
  ⟨rfl, rfl, rfl, rfl, rfl, rfl⟩

/-- C5: in any state, with any counter and any elapsed time, each manual
operation `open()` / `half_open()` / `close()` succeeds immediately: it writes
the new tag to storage, replaces the cached state object, appends one listener
notification carrying the previous and the new state, and subsequent calls
dispatch according to the new state's handler. -/
theorem manual_override (b : CircuitBreaker) (now now2 : Nat) (out : Outcome) :
    ((b.openBreaker now).current_state = .opened ∧
     (b.openBreaker now).cachedState = .opened now ∧
     (b.openBreaker now).notifications
       = b.notifications ++ [⟨some b.cachedState.tag, .opened⟩] ∧
     (b.openBreaker now).dispatch now2 out
       = CircuitBreaker.handleOpen (b.openBreaker now) now now2 out) ∧
    ((b.halfOpenBreaker now).current_state = .half_open ∧
     (b.halfOpenBreaker now).cachedState = .half_open ∧
     (b.halfOpenBreaker now).notifications
       = b.notifications ++ [⟨some b.cachedState.tag, .half_open⟩] ∧
     (b.halfOpenBreaker now).dispatch now2 out
       = CircuitBreaker.handleHalfOpen (b.halfOpenBreaker now) now2 out) ∧
    ((b.closeBreaker now).current_state = .closed ∧
     (b.closeBreaker now).cachedState = .closed ∧
     (b.closeBreaker now).notifications
       = b.notifications ++ [⟨some b.cachedState.tag, .closed⟩] ∧
     (b.closeBreaker now).dispatch now2 out
       = CircuitBreaker.handleClosed (b.closeBreaker now) now2 out) := by
  refine ⟨⟨rfl, rfl, rfl, ?_⟩, ⟨rfl, rfl, rfl, ?_⟩, ⟨?_, ?_, ?_, ?_⟩⟩
  · simp [CircuitBreaker.dispatch, CircuitBreaker.state,
      CircuitBreaker.current_state, CircuitBreaker.openBreaker,
      CircuitBreaker.set_state, CircuitBreaker.create_new_state, StateObj.tag]
  · simp [CircuitBreaker.dispatch, CircuitBreaker.state,
      CircuitBreaker.current_state, CircuitBreaker.halfOpenBreaker,
      CircuitBreaker.set_state, CircuitBreaker.create_new_state, StateObj.tag]
  · simp [CircuitBreaker.closeBreaker, CircuitBreaker.set_state,
      CircuitBreaker.current_state, CircuitBreaker.setCounter]
  · simp [CircuitBreaker.closeBreaker, CircuitBreaker.set_state,
      CircuitBreaker.create_new_state, CircuitBreaker.setCounter]
  · simp [CircuitBreaker.closeBreaker, CircuitBreaker.set_state,
      CircuitBreaker.setCounter]
  · simp [CircuitBreaker.dispatch, CircuitBreaker.state,
      CircuitBreaker.current_state, CircuitBreaker.closeBreaker,
      CircuitBreaker.set_state, CircuitBreaker.create_new_state, StateObj.tag,
      CircuitBreaker.setCounter]

/-- C6: when the storage tag was changed externally (it differs from the
cached state's tag), the next access to `state` adopts the storage tag by
constructing a fresh state object and fires exactly one notification from the
old cached tag to the adopted tag; when the tags agree, the cached object is
returned as is and nothing is notified. -/
theorem drift_detection (b : CircuitBreaker) (now : Nat) :
    (b.current_state ≠ b.cachedState.tag →
      (b.state now).1 = CircuitBreaker.create_new_state b.current_state now ∧
      (b.state now).2.cachedState
        = CircuitBreaker.create_new_state b.current_state now ∧
      (b.state now).2.cachedState.tag = b.current_state ∧
      (b.state now).2.notifications
        = b.notifications ++ [⟨some b.cachedState.tag, b.current_state⟩]) ∧
    (b.current_state = b.cachedState.tag →
      b.state now = (b.cachedState, b)) := by
  constructor
  · intro h
    by_cases hc : b.current_state = .closed
    · have h' : CircuitBreakerState.closed ≠ b.cachedState.tag := hc ▸ h
      simp [CircuitBreaker.state, h', CircuitBreaker.set_state, hc,
        CircuitBreaker.setCounter, StateObj.tag_create]
    · simp [CircuitBreaker.state, h, CircuitBreaker.set_state, hc,
        StateObj.tag_create]
  · intro h
    simp [CircuitBreaker.state, h]

/-- C6 witness: a default breaker whose storage tag was flipped to Open
adopts the Open tag on the next `state` access and fires exactly one
notification from Closed to Open. -/
theorem drift_detection_witness :
    bDrift.current_state ≠ bDrift.cachedState.tag ∧
    ((bDrift.state 7).1 = CircuitBreaker.create_new_state bDrift.current_state 7 ∧
     (bDrift.state 7).2.cachedState
       = CircuitBreaker.create_new_state bDrift.current_state 7 ∧
     (bDrift.state 7).2.cachedState.tag = bDrift.current_state ∧
     (bDrift.state 7).2.notifications
       = bDrift.notifications ++ [⟨some bDrift.cachedState.tag, bDrift.current_state⟩]) :=
  ⟨by decide, (drift_detection bDrift 7).1 (by decide)⟩

/-- C4 counterexample: the claim "an excluded error leaves the state tag
unchanged in every starting state, including the Open-after-timeout trial" is
false as stated.  For a concrete Open breaker whose timeout has elapsed, the
trial call raising an excluded error re-raises it and leaves the counter
unchanged, but the state tag after the call is Half-Open, not Open: the
breaker had already transitioned to Half-Open because of the timeout before
the function ran. -/
theorem exclusion_transparency_cex :
    bOpenCex.is_system_error eExcluded = false ∧
    bOpenCex.current_state = .opened ∧
    ¬ (10 - 0 < bOpenCex.timeout_duration) ∧
    (bOpenCex.call (.plain (.raised eExcluded)) 10).result
      = .reraised eExcluded ∧
    (bOpenCex.call (.plain (.raised eExcluded)) 10).breaker.fail_counter
      = bOpenCex.fail_counter ∧
    (bOpenCex.call (.plain (.raised eExcluded)) 10).breaker.current_state
      ≠ .opened := by
  decide

/-- C4 (amended): `is_system_error e` is `false` exactly when the type of `e`
is a subtype (including the exact type) of some excluded type; a call whose
wrapped function raises an excluded error re-raises it unchanged and leaves
the failure counter unchanged in every starting state; in the Closed and
Half-Open states the breaker (state tag included) is left entirely unchanged,
while for an Open-after-timeout trial the breaker has already moved to
Half-Open because of the timeout before the function runs, so the call ends
with tag Half-Open and the excluded error causes no further transition. -/
theorem exclusion_transparency (b : CircuitBreaker) (e : Exc) (t now : Nat) :
    (b.is_system_error e = false ↔
      ∃ ty ∈ b.excluded_exception_types, ty ∈ e.ancestors) ∧
    (b.current_state = .closed → b.cachedState = .closed →
      b.is_system_error e = false →
      b.call (.plain (.raised e)) now = ⟨.reraised e, b, 1, 1⟩) ∧
    (b.current_state = .half_open → b.cachedState = .half_open →
      b.is_system_error e = false →
      b.call (.plain (.raised e)) now = ⟨.reraised e, b, 1, 1⟩) ∧
    (b.current_state = .opened → b.cachedState = .opened t →
      ¬ (now - t < b.timeout_duration) →
      b.is_system_error e = false →
      b.call (.plain (.raised e)) now
          = ⟨.reraised e, b.halfOpenBreaker now, 1, 1⟩ ∧
        (b.halfOpenBreaker now).fail_counter = b.fail_counter ∧
        (b.halfOpenBreaker now).current_state = .half_open) := by
  refine ⟨?_, ?_, ?_, ?_⟩
  · simp [CircuitBreaker.is_system_error]
  · intro hs hc hex
    simp [CircuitBreaker.call, CircuitBreaker.callPlain,
      CircuitBreaker.dispatch_closed b now _ hs hc,
      CircuitBreaker.handleClosed, hex]
  · intro hs hc hex
    simp [CircuitBreaker.call, CircuitBreaker.callPlain,
      CircuitBreaker.dispatch_half_open b now _ hs hc,
      CircuitBreaker.handleHalfOpen, hex]
  · intro hs hc hto hex
    refine ⟨?_, CircuitBreaker.fail_counter_halfOpenBreaker b now,
      CircuitBreaker.current_state_halfOpenBreaker b now⟩
    simp [CircuitBreaker.call, CircuitBreaker.callPlain,
      CircuitBreaker.dispatch_opened b t now _ hs hc,
      CircuitBreaker.handleOpen, hto, CircuitBreaker.handleHalfOpen,
      CircuitBreaker.is_system_error_halfOpenBreaker, hex]

/-- C4 witness: a concrete Closed breaker with counter 3 calling a function
that raises an excluded error re-raises it and is left entirely unchanged. -/
theorem exclusion_transparency_witness :
    bClosedW.current_state = .closed ∧
    bClosedW.cachedState = .closed ∧
    bClosedW.is_system_error eExcluded = false ∧
    bClosedW.call (.plain (.raised eExcluded)) 4
      = ⟨.reraised eExcluded, bClosedW, 1, 1⟩ :=
  ⟨by decide, by decide, by decide,
   (exclusion_transparency bClosedW eExcluded 0 4).2.1
     (by decide) (by decide) (by decide)⟩

/-- C3: in the Half-Open state the trial invokes the wrapped function exactly
once; a successful trial moves the breaker to Closed with the counter reset
to 0, and a trial raising a non-excluded error re-raises it and moves the
breaker to Open with a fresh entry timestamp equal to the moment of the
failure. -/
theorem half_open_resolution (b : CircuitBreaker) (e : Exc) (now : Nat)
    (hs : b.current_state = .half_open) (hc : b.cachedState = .half_open) :
    ((b.call (.plain .success) now).fn_invocations = 1 ∧
     (b.call (.plain .success) now).result = .ok ∧
     (b.call (.plain .success) now).breaker.current_state = .closed ∧
     (b.call (.plain .success) now).breaker.cachedState = .closed ∧
     (b.call (.plain .success) now).breaker.fail_counter = 0) ∧
    (b.is_system_error e = true →
      (b.call (.plain (.raised e)) now).fn_invocations = 1 ∧
      (b.call (.plain (.raised e)) now).result = .reraised e ∧
      (b.call (.plain (.raised e)) now).breaker.current_state = .opened ∧
      (b.call (.plain (.raised e)) now).breaker.cachedState = .opened now ∧
      (b.call (.plain (.raised e)) now).breaker.fail_counter
        = b.fail_counter) := by
  constructor
  · simp [CircuitBreaker.call, CircuitBreaker.callPlain,
      CircuitBreaker.dispatch_half_open b now _ hs hc,
      CircuitBreaker.handleHalfOpen, CircuitBreaker.current_state_closeBreaker,
      CircuitBreaker.cachedState_closeBreaker,
      CircuitBreaker.fail_counter_closeBreaker]
  · intro hsys
    simp [CircuitBreaker.call, CircuitBreaker.callPlain,
      CircuitBreaker.dispatch_half_open b now _ hs hc,
      CircuitBreaker.handleHalfOpen, hsys,
      CircuitBreaker.current_state_openBreaker,
      CircuitBreaker.cachedState_openBreaker,
      CircuitBreaker.fail_counter_openBreaker]

/-- C3 witness: a concrete Half-Open breaker with counter 2; its successful
trial closes the breaker with counter 0, and a trial raising a non-excluded
error re-raises it and opens the breaker with entry timestamp 8. -/
theorem half_open_resolution_witness :
    bHalfOpenW.current_state = .half_open ∧
    bHalfOpenW.cachedState = .half_open ∧
    (((bHalfOpenW.call (.plain .success) 8).fn_invocations = 1 ∧
      (bHalfOpenW.call (.plain .success) 8).result = .ok ∧
      (bHalfOpenW.call (.plain .success) 8).breaker.current_state = .closed ∧
      (bHalfOpenW.call (.plain .success) 8).breaker.cachedState = .closed ∧
      (bHalfOpenW.call (.plain .success) 8).breaker.fail_counter = 0) ∧
     (bHalfOpenW.is_system_error eSys = true →
      (bHalfOpenW.call (.plain (.raised eSys)) 8).fn_invocations = 1 ∧
      (bHalfOpenW.call (.plain (.raised eSys)) 8).result = .reraised eSys ∧
      (bHalfOpenW.call (.plain (.raised eSys)) 8).breaker.current_state = .opened ∧
      (bHalfOpenW.call (.plain (.raised eSys)) 8).breaker.cachedState = .opened 8 ∧
      (bHalfOpenW.call (.plain (.raised eSys)) 8).breaker.fail_counter
        = bHalfOpenW.fail_counter)) :=
  ⟨by decide, by decide,
   half_open_resolution bHalfOpenW eSys 8 (by decide) (by decide)⟩

/-- C2: an Open breaker whose timeout has not yet elapsed does not invoke the
wrapped function and fails with the breaker-open error (a distinct result
kind) carrying the remaining wait time, leaving the breaker unchanged; at or
after timeout expiry the breaker first transitions to Half-Open (appending
one listener notification) and that same invocation is handled by the
Half-Open logic, invoking the wrapped function exactly once. -/
theorem open_timeout_gating (b : CircuitBreaker) (t now : Nat) (out : Outcome)
    (hs : b.current_state = .opened) (hc : b.cachedState = .opened t) :
    (now - t < b.timeout_duration →
      b.call (.plain out) now
        = ⟨.breakerOpen (b.timeout_duration - (now - t)), b, 0, 1⟩) ∧
    (¬ (now - t < b.timeout_duration) →
      (b.halfOpenBreaker now).current_state = .half_open ∧
      (b.halfOpenBreaker now).notifications
        = b.notifications ++ [⟨some .opened, .half_open⟩] ∧
      b.call (.plain out) now
        = ⟨((b.halfOpenBreaker now).handleHalfOpen now out).result,
           ((b.halfOpenBreaker now).handleHalfOpen now out).breaker,
           ((b.halfOpenBreaker now).handleHalfOpen now out).fn_invocations, 1⟩ ∧
      (b.call (.plain out) now).fn_invocations = 1) := by
  constructor
  · intro hlt
    simp [CircuitBreaker.call, CircuitBreaker.callPlain,
      CircuitBreaker.dispatch_opened b t now _ hs hc,
      CircuitBreaker.handleOpen, hlt]
  · intro hto
    have hnotif : (b.halfOpenBreaker now).notifications
        = b.notifications ++ [⟨some .opened, .half_open⟩] := by
      simp [CircuitBreaker.notifications_halfOpenBreaker, hc, StateObj.tag]
    refine ⟨CircuitBreaker.current_state_halfOpenBreaker b now, hnotif, ?_, ?_⟩
    · simp [CircuitBreaker.call, CircuitBreaker.callPlain,
        CircuitBreaker.dispatch_opened b t now _ hs hc,
        CircuitBreaker.handleOpen, hto]
    · simp [CircuitBreaker.call, CircuitBreaker.callPlain,
        CircuitBreaker.dispatch_opened b t now _ hs hc,
        CircuitBreaker.handleOpen, hto]
      cases out with
      | success => simp [CircuitBreaker.handleHalfOpen]
      | raised e =>
        by_cases he : (b.halfOpenBreaker now).is_system_error e <;>
          simp [CircuitBreaker.handleHalfOpen, he]

/-- C2 witness: a concrete Open breaker entered at time 5 with timeout 3: a
call at time 6 is rejected with the breaker-open error carrying the remaining
2 seconds and no function invocation; a call at time 9 transitions to
Half-Open with one notification and invokes the function exactly once. -/
theorem open_timeout_gating_witness :
    bOpenW.current_state = .opened ∧
    bOpenW.cachedState = .opened 5 ∧
    (6 - 5 < bOpenW.timeout_duration) ∧
    bOpenW.call (.plain .success) 6
      = ⟨.breakerOpen (bOpenW.timeout_duration - (6 - 5)), bOpenW, 0, 1⟩ ∧
    ¬ (9 - 5 < bOpenW.timeout_duration) ∧
    ((bOpenW.halfOpenBreaker 9).current_state = .half_open ∧
     (bOpenW.halfOpenBreaker 9).notifications
       = bOpenW.notifications ++ [⟨some .opened, .half_open⟩] ∧
     bOpenW.call (.plain .success) 9
       = ⟨((bOpenW.halfOpenBreaker 9).handleHalfOpen 9 .success).result,
          ((bOpenW.halfOpenBreaker 9).handleHalfOpen 9 .success).breaker,
          ((bOpenW.halfOpenBreaker 9).handleHalfOpen 9 .success).fn_invocations, 1⟩ ∧
     (bOpenW.call (.plain .success) 9).fn_invocations = 1) :=
  ⟨by decide, by decide, by decide,
   (open_timeout_gating bOpenW 5 6 .success (by decide) (by decide)).1 (by decide),
   by decide,
   (open_timeout_gating bOpenW 5 9 .success (by decide) (by decide)).2 (by decide)⟩

theorem CircuitBreaker.closed_success_step (b : CircuitBreaker) (now : Nat)
    (hs : b.current_state = .closed) (hc : b.cachedState = .closed) :
    b.call (.plain .success) now = ⟨.ok, b.setCounter 0, 1, 1⟩ := by
  simp [call, callPlain, dispatch_closed b now _ hs hc, handleClosed]

theorem CircuitBreaker.closed_fail_step (b : CircuitBreaker) (e : Exc)
    (now : Nat) (hs : b.current_state = .closed)
    (hc : b.cachedState = .closed) (hsys : b.is_system_error e = true)
    (hlt : b.state_storage.counter + 1 < b.fail_max) :
    b.call (.plain (.raised e)) now
      = ⟨.reraised e, b.setCounter (b.state_storage.counter + 1), 1, 1⟩ := by
  have hnot : ¬ (b.fail_max ≤ b.state_storage.counter + 1) := Nat.not_le.mpr hlt
  simp [call, callPlain, dispatch_closed b now _ hs hc, handleClosed, hsys,
    inc_counter, setCounter, hnot]

theorem CircuitBreaker.closed_fail_trip (b : CircuitBreaker) (e : Exc)
    (now : Nat) (hs : b.current_state = .closed)
    (hc : b.cachedState = .closed) (hsys : b.is_system_error e = true)
    (hge : b.fail_max ≤ b.state_storage.counter + 1) :
    b.call (.plain (.raised e)) now
      = ⟨.reraised e,
         (b.setCounter (b.state_storage.counter + 1)).openBreaker now, 1, 1⟩ := by
  simp [call, callPlain, dispatch_closed b now _ hs hc, handleClosed, hsys,
    inc_counter, setCounter, hge]

theorem failCalls_eq (b : CircuitBreaker) (e : Exc) (now : Nat)
    (hs : b.current_state = .closed) (hc : b.cachedState = .closed)
    (h0 : b.state_storage.counter = 0) (hsys : b.is_system_error e = true) :
    ∀ k, k < b.fail_max → failCalls e now b k = b.setCounter k := by
  intro k
  induction k with
  | zero =>
    intro _
    exact (CircuitBreaker.setCounter_of_eq b 0 h0).symm
  | succ n ih =>
    intro hlt
    have hn : n < b.fail_max := Nat.lt_of_succ_lt hlt
    show ((failCalls e now b n).call (.plain (.raised e)) now).breaker
      = b.setCounter (n + 1)
    rw [ih hn, CircuitBreaker.closed_fail_step (b.setCounter n) e now hs hc hsys hlt]
    rfl

/-- C1: a Closed breaker with counter 0 and threshold `N ≥ 1`: `N` consecutive
calls raising a non-excluded error increment the counter on each failure and
move the breaker to Open exactly when the counter reaches `N`; `N - 1` such
failures followed by one successful call reset the counter to 0 with the
breaker still Closed. -/
theorem threshold_trip (b : CircuitBreaker) (e : Exc) (now N : Nat)
    (hN : 1 ≤ N) (hmax : b.fail_max = N)
    (hs : b.current_state = .closed) (hc : b.cachedState = .closed)
    (h0 : b.fail_counter = 0) (hsys : b.is_system_error e = true) :
    (∀ k, k < N →
      (failCalls e now b k).current_state = .closed ∧
      (failCalls e now b k).fail_counter = k) ∧
    ((failCalls e now b N).current_state = .opened ∧
     (failCalls e now b N).fail_counter = N) ∧
    (((failCalls e now b (N - 1)).call
        (.plain .success) now).breaker.current_state = .closed ∧
     ((failCalls e now b (N - 1)).call
        (.plain .success) now).breaker.fail_counter = 0) := by
  have hN1 : N - 1 < b.fail_max := by omega
  have heq1 : failCalls e now b (N - 1) = b.setCounter (N - 1) :=
    failCalls_eq b e now hs hc h0 hsys (N - 1) hN1
  have hge : b.fail_max ≤ (b.setCounter (N - 1)).state_storage.counter + 1 := by
    have hcnt : (b.setCounter (N - 1)).state_storage.counter = N - 1 := rfl
    omega
  have htrip :=
    CircuitBreaker.closed_fail_trip (b.setCounter (N - 1)) e now hs hc hsys hge
  have hNsub : N - 1 + 1 = N := by omega
  refine ⟨?_, ?_, ?_⟩
  · intro k hk
    rw [failCalls_eq b e now hs hc h0 hsys k (by omega)]
    exact ⟨hs, rfl⟩
  · have hstep : failCalls e now b N
        = ((failCalls e now b (N - 1)).call (.plain (.raised e)) now).breaker := by
      conv_lhs => rw [← hNsub]
      rfl
    rw [hstep, heq1, htrip]
    refine ⟨CircuitBreaker.current_state_openBreaker _ _, ?_⟩
    have h2 : ((b.setCounter (N - 1)).setCounter
        ((b.setCounter (N - 1)).state_storage.counter + 1)).fail_counter = N := by
      have : ((b.setCounter (N - 1)).setCounter
          ((b.setCounter (N - 1)).state_storage.counter + 1)).fail_counter
          = N - 1 + 1 := rfl
      omega
    exact (CircuitBreaker.fail_counter_openBreaker _ _).trans h2
  · rw [heq1,
      CircuitBreaker.closed_success_step (b.setCounter (N - 1)) now hs hc]
    exact ⟨hs, rfl⟩

/-- C1 witness: a fresh breaker with threshold 2: after one failing call the
breaker is Closed with counter 1, after two it is Open with counter 2, and
one failure followed by one success leaves it Closed with counter 0. -/
theorem threshold_trip_witness :
    (1 ≤ 2 ∧ bTripW.fail_max = 2 ∧ bTripW.current_state = .closed ∧
     bTripW.cachedState = .closed ∧ bTripW.fail_counter = 0 ∧
     bTripW.is_system_error eSys = true) ∧
    ((∀ k, k < 2 →
      (failCalls eSys 0 bTripW k).current_state = .closed ∧
      (failCalls eSys 0 bTripW k).fail_counter = k) ∧
     ((failCalls eSys 0 bTripW 2).current_state = .opened ∧
      (failCalls eSys 0 bTripW 2).fail_counter = 2) ∧
     (((failCalls eSys 0 bTripW (2 - 1)).call
         (.plain .success) 0).breaker.current_state = .closed ∧
      ((failCalls eSys 0 bTripW (2 - 1)).call
         (.plain .success) 0).breaker.fail_counter = 0)) :=
  ⟨⟨by decide, by decide, by decide, by decide, by decide, by decide⟩,
   threshold_trip bTripW eSys 0 2 (by decide) (by decide) (by decide)
     (by decide) (by decide) (by decide)⟩

end Aiobreaker
